import Mathlib

/-!
A shallow embedding of `src/custom_components/timer/__init__.py` (a Home
Assistant custom countdown-timer component).

Modelling conventions:
* `datetime` and `timedelta` values are integers counting whole seconds
  (the code truncates every `utcnow()` to whole seconds via
  `.replace(microsecond=0)`, so second granularity is exact).
* The scheduler port (`async_track_point_in_utc_time` / calling the
  returned unsubscribe handle) is modelled explicitly: `scheduled` is the
  list of live scheduled callbacks `(handle id, due time)` for this timer,
  `_listener` is the handle the Timer holds (`self._listener`), and
  cancelling (`self._listener()`) removes that handle from `scheduled`.
* The event bus port (`hass.bus.async_fire`) is modelled as an append-only
  trace `events`.
* Fallible Python code is embedded in `Except PyError`; an uncaught Python
  exception escaping a function is `Except.error`.
-/

/-- `STATUS_IDLE` constant of the source. -/
def STATUS_IDLE : String := "idle"

/-- `STATUS_ACTIVE` constant of the source. -/
def STATUS_ACTIVE : String := "active"

/-- `STATUS_PAUSED` constant of the source. -/
def STATUS_PAUSED : String := "paused"

/-- `VIABLE_STATUSES = [STATUS_IDLE, STATUS_ACTIVE, STATUS_PAUSED]`. -/
def VIABLE_STATUSES : List String := [STATUS_IDLE, STATUS_ACTIVE, STATUS_PAUSED]

/-- The five lifecycle events the component fires on the event bus
(`EVENT_TIMER_STARTED`, `EVENT_TIMER_RESTARTED`, `EVENT_TIMER_PAUSED`,
`EVENT_TIMER_CANCELLED`, `EVENT_TIMER_FINISHED`). -/
inductive TEvent
  | started
  | restarted
  | paused
  | cancelled
  | finished
deriving DecidableEq, Repr

/-- The Python exception classes that can escape the restore procedure.
`except ValueError` clauses in the source catch only `ValueError`, so
`IndexError` (list index out of range) and `NameError` (use of the unbound
name `config` on the line `self._duration = cv.time_period_str(config[CONF_DURATION])`)
propagate to the caller. -/
inductive PyError
  | indexError
  | nameError
deriving DecidableEq, Repr

/-- The state of one `Timer` instance together with the two external ports
it mutates (scheduler, event bus).

Fields named after the Python attributes:
`_state`, `_duration`, `_remaining`, `_end`, `_listener`,
`_restore`, `_restore_grace_period`; `_config_duration` is
`self._config[CONF_DURATION]` (a duration string, e.g. `"0:00:05"`).

Model-only fields: `scheduled` (the scheduler port's set of live
callbacks for this timer, as `(handle, due time)` pairs), `nextId` (fresh
handle supply), `events` (the event-bus trace). When `_restore` is false
the source keeps `_restore_grace_period = None`; the model stores `0`
there — the field is only ever read on restore paths guarded by
`_restore` being true. -/
structure Sys where
  _state : String
  _duration : Int
  _remaining : Int
  _end : Option Int
  _listener : Option Nat
  _config_duration : String
  _restore : Bool
  _restore_grace_period : Int
  scheduled : List (Nat × Int)
  nextId : Nat
  events : List TEvent
deriving DecidableEq, Repr

instance {ε α : Type} [DecidableEq ε] [DecidableEq α] :
    DecidableEq (Except ε α) := fun x y =>
  match x, y with
  | .ok a, .ok b =>
      if h : a = b then .isTrue (h ▸ rfl) else .isFalse (fun hh => h (Except.ok.inj hh))
  | .error e, .error f =>
      if h : e = f then .isTrue (h ▸ rfl) else .isFalse (fun hh => h (Except.error.inj hh))
  | .ok _, .error _ => .isFalse Except.noConfusion
  | .error _, .ok _ => .isFalse Except.noConfusion

/-- `if self._listener: self._listener(); self._listener = None` — the
cancellation prologue shared by `async_start`, `async_pause` and
`async_cancel`. Calling the stored unsubscribe handle removes that
callback from the scheduler. -/
def cancelListener (s : Sys) : Sys :=
  match s._listener with
  | none => s
  | some h =>
      { s with scheduled := s.scheduled.filter (fun p => p.1 ≠ h), _listener := none }

/-- `newduration = None; if duration: newduration = duration` — Python
truthiness of the `duration` argument (`None` and `timedelta(0)` are both
falsy). -/
def truthyDuration : Option Int → Option Int
  | none => none
  | some x => if x = 0 then none else some x

/-- `Timer.async_start(self, duration)`. `d` is the `duration` argument
(`none` models Python `None`), `now` is `dt_util.utcnow().replace(microsecond=0)`. -/
def async_start (d : Option Int) (now : Int) (s0 : Sys) : Sys :=
  let s := cancelListener s0
  let newduration := truthyDuration d
  let event := if s._state = STATUS_ACTIVE ∨ s._state = STATUS_PAUSED then
      TEvent.restarted
    else
      TEvent.started
  -- duration resolution: (duration, remaining, end) after the if/elif/else
  let dre : Int × Int × Int :=
    if s._remaining ≠ 0 ∧ newduration = none then
      (s._duration, s._remaining, now + s._remaining)
    else
      match newduration with
      | some nd => (nd, nd, now + nd)
      | none => (s._duration, s._duration, now + s._duration)
  { s with _state := STATUS_ACTIVE,
           _duration := dre.1,
           _remaining := dre.2.1,
           _end := some dre.2.2,
           events := s.events ++ [event],
           _listener := some s.nextId,
           scheduled := s.scheduled ++ [(s.nextId, dre.2.2)],
           nextId := s.nextId + 1 }

/-- `Timer.async_pause(self)`. Guard is `if self._listener is None: return`.
On the source's own reachable states `_listener ≠ None` implies
`_end ≠ None` (every assignment of `_listener` to a handle is preceded by
an assignment of `_end` to a datetime, and both are cleared together), so
the `getD` default is never consulted; in Python an unreachable
`None - now` would raise `TypeError`. -/
def async_pause (now : Int) (s : Sys) : Sys :=
  match s._listener with
  | none => s
  | some h =>
      { s with scheduled := s.scheduled.filter (fun p => p.1 ≠ h),
               _listener := none,
               _remaining := s._end.getD 0 - now,
               _state := STATUS_PAUSED,
               _end := none,
               events := s.events ++ [TEvent.paused] }

/-- `Timer.async_cancel(self)`: unconditional reset to idle, always fires
`EVENT_TIMER_CANCELLED`. -/
def async_cancel (s0 : Sys) : Sys :=
  let s := cancelListener s0
  { s with _state := STATUS_IDLE,
           _end := none,
           _remaining := 0,
           events := s.events ++ [TEvent.cancelled] }

/-- `Timer.async_finish(self)`: no-op unless active. Note the source sets
`self._listener = None` WITHOUT calling the handle first, so the scheduler
side (`scheduled`) is left untouched. -/
def async_finish (s : Sys) : Sys :=
  if s._state ≠ STATUS_ACTIVE then s
  else
    { s with _listener := none,
             _state := STATUS_IDLE,
             _end := none,
             _remaining := 0,
             events := s.events ++ [TEvent.finished] }

/-- `Timer._async_finished(self, time)` — the body the scheduler invokes
when the callback fires (finish-by-timeout). Identical guard and body to
`async_finish`. -/
def _async_finished (s : Sys) : Sys :=
  if s._state ≠ STATUS_ACTIVE then s
  else
    { s with _listener := none,
             _state := STATUS_IDLE,
             _end := none,
             _remaining := 0,
             events := s.events ++ [TEvent.finished] }

/-! ### String parsing used by `_restore_state`

The restore code parses attribute strings with
`list(map(int, str(x).split(":")))` and
`datetime.strptime(x, "%Y-%m-%d %H:%M:%S%z")`. The embeddings below follow
Python semantics; `int(..)` is modelled for decimal literals with optional
leading `-` and surrounding whitespace (Python additionally accepts a `+`
sign and digit-group underscores; no input in this development uses
those). -/

/-- Python `str.split(sep)` for a single-character separator: splits on
every occurrence; the empty string gives `[""]`. (Characters, rather than
`String.splitOn`, so that every parse evaluates by kernel reduction.) -/
def pySplitAux (sep : Char) : List Char → List Char → List (List Char)
  | [], acc => [acc.reverse]
  | c :: cs, acc =>
      if c = sep then acc.reverse :: pySplitAux sep cs []
      else pySplitAux sep cs (c :: acc)

/-- Python `str.split(sep)` on the character list of a string. -/
def pySplit (sep : Char) (cs : List Char) : List (List Char) :=
  pySplitAux sep cs []

/-- Numeric value of a list of decimal digits. -/
def digitsVal (cs : List Char) : Nat :=
  cs.foldl (fun n c => 10 * n + (c.toNat - '0'.toNat)) 0

/-- The whitespace Python's `int` strips from its argument. -/
def isSpaceChar (c : Char) : Bool :=
  c = ' ' ∨ c = '\t' ∨ c = '\n' ∨ c = '\r'

/-- Python `int(s)`: optional surrounding whitespace, optional leading
`-`, then one or more decimal digits; `none` models the `ValueError`
raised otherwise. (Python additionally accepts a `+` sign and digit-group
underscores; no input in this development uses those.) -/
def pyIntOfChars (cs0 : List Char) : Option Int :=
  let cs := ((cs0.dropWhile isSpaceChar).reverse.dropWhile isSpaceChar).reverse
  match cs with
  | '-' :: ds =>
      if ds ≠ [] ∧ ds.all Char.isDigit then some (-(digitsVal ds : Int)) else none
  | ds =>
      if ds ≠ [] ∧ ds.all Char.isDigit then some ((digitsVal ds : Int)) else none

/-- `list(map(int, parts))`: `none` models the `ValueError` Python's `int`
raises when any part fails to parse. -/
def mapIntParts (parts : List (List Char)) : Option (List Int) :=
  parts.mapM pyIntOfChars

/-- `str(x)` for an attribute lookup result: `str(None) = "None"`, and
`str` of a string is itself. -/
def strOfOpt : Option String → String
  | none => "None"
  | some v => v

/-- `str(timedelta())` in Python is `"0:00:00"`. -/
def STR_TIMEDELTA_ZERO : String := "0:00:00"

/-- Parse exactly `w` decimal digits (the zero-padded numeric fields of
the `strptime` format). -/
def fixedNat (w : Nat) (cs : List Char) : Option Nat :=
  if cs.length = w ∧ cs.all Char.isDigit then some (digitsVal cs) else none

/-- Gregorian leap year. -/
def isLeap (y : Int) : Bool := (y % 4 = 0 ∧ y % 100 ≠ 0) ∨ y % 400 = 0

/-- Days in a Gregorian month (used to reject day-of-month values
`datetime` would refuse with `ValueError`). -/
def daysInMonth (y m : Int) : Int :=
  if m = 2 then (if isLeap y then 29 else 28)
  else if m = 4 ∨ m = 6 ∨ m = 9 ∨ m = 11 then 30
  else 31

/-- Days since 1970-01-01 of the civil date `y-m-d` (standard
era/year-of-era computation over the proleptic Gregorian calendar). -/
def daysFromCivil (y m d : Int) : Int :=
  let y2 := y - (if m ≤ 2 then 1 else 0)
  let era := (if y2 ≥ 0 then y2 else y2 - 399) / 400
  let yoe := y2 - era * 400
  let doy := (153 * (m + (if m > 2 then -3 else 9)) + 2) / 5 + d - 1
  let doe := yoe * 365 + yoe / 4 - yoe / 100 + doy
  era * 146097 + doe - 719468

/-- The `%z` directive: `±HHMM`, `±HH:MM` or `Z`, giving an offset in
seconds. -/
def parseOffset (cs : List Char) : Option Int :=
  if cs = ['Z'] then some 0
  else
    match cs with
    | [] => none
    | sgn :: rest =>
        let sg : Option Int :=
          if sgn = '+' then some 1 else if sgn = '-' then some (-1) else none
        match sg with
        | none => none
        | some sg =>
            match rest with
            | [h1, h2, m1, m2] => do
                let h ← fixedNat 2 [h1, h2]
                let m ← fixedNat 2 [m1, m2]
                some (sg * ((h : Int) * 3600 + (m : Int) * 60))
            | [h1, h2, ':', m1, m2] => do
                let h ← fixedNat 2 [h1, h2]
                let m ← fixedNat 2 [m1, m2]
                some (sg * ((h : Int) * 3600 + (m : Int) * 60))
            | _ => none

/-- `datetime.strptime(s, "%Y-%m-%d %H:%M:%S%z")`, as a UTC epoch-second
value; `none` models the `ValueError` raised on a malformed or
out-of-range input. Zero-padded fields only (a sound subset of the
directive widths Python accepts; the component itself serializes
`finishes_at` zero-padded). -/
def strptimeUtc (s : String) : Option Int :=
  match pySplit ' ' s.data with
  | [datePart, timePart] =>
      (match pySplit '-' datePart with
       | [ys, ms, ds] =>
           (match pySplit ':' (timePart.take 8) with
            | [hs, mins, ss] => do
                let y ← fixedNat 4 ys
                let mo ← fixedNat 2 ms
                let d ← fixedNat 2 ds
                let h ← fixedNat 2 hs
                let mi ← fixedNat 2 mins
                let sec ← fixedNat 2 ss
                let off ← parseOffset (timePart.drop 8)
                if 1 ≤ y ∧ 1 ≤ mo ∧ mo ≤ 12 ∧ 1 ≤ (d : Int) ∧
                    (d : Int) ≤ daysInMonth y mo ∧ h ≤ 23 ∧ mi ≤ 59 ∧ sec ≤ 59 then
                  some (daysFromCivil y mo d * 86400 +
                        (h : Int) * 3600 + (mi : Int) * 60 + (sec : Int) - off)
                else none
            | _ => none)
       | _ => none)
  | _ => none

/-- `cv.time_period_str` for the `H:MM:SS` shape the component stores in
config (`_format_timedelta` output); `none` models the `vol.Invalid`
raised upstream on malformed config. -/
def time_period_str (s : String) : Option Int :=
  match mapIntParts (pySplit ':' s.data) with
  | some [h, m, sec] => some (3600 * h + 60 * m + sec)
  | _ => none

/-! ### Restore reconciliation (`Timer._restore_state`) -/

/-- The persisted attributes `_restore_state` reads from
`state.attributes` (each is a string or absent; no other key is read). -/
structure RestoredAttrs where
  duration : Option String
  remaining : Option String
  finishes_at : Option String
deriving DecidableEq, Repr

/-- The "restore last duration" block of `_restore_state` (guarded by
`if not self._config[CONF_DURATION] and not ... == "None"`).
When the guard is true the block always escapes with an exception:
`IndexError` if the colon-split parts all parse as ints but number fewer
than three, otherwise `NameError` from the trailing line
`self._duration = cv.time_period_str(config[CONF_DURATION])`, which reads
the unbound name `config` (reached both after a successful parse and after
the `except ValueError` fallback). -/
def restoreDuration (config_duration : String) (dur_attr : Option String) :
    Except PyError Unit :=
  if config_duration.data.isEmpty ∧ dur_attr ≠ some "None" then
    match mapIntParts (pySplit ':' (strOfOpt dur_attr).data) with
    | some ds => if ds.length < 3 then .error .indexError else .error .nameError
    | none => .error .nameError
  else .ok ()

/-- The "restore remaining (needed for paused state)" block: returns the
new `_remaining`. A literal `"None"` or `"0:00:00"` (and any non-paused
state) takes the `else` branch and yields zero; a `ValueError` from
`int(..)` is caught and yields the configured duration; colon-split parts
that all parse but number fewer than three raise `IndexError` out of the
function. -/
def restoreRemaining (st : String) (rem_attr : Option String) (duration : Int) :
    Except PyError Int :=
  if st = STATUS_PAUSED ∧ rem_attr ≠ some "None" ∧ rem_attr ≠ some STR_TIMEDELTA_ZERO then
    match mapIntParts (pySplit ':' (strOfOpt rem_attr).data) with
    | some rs =>
        if rs.length < 3 then .error .indexError
        else .ok (3600 * rs.getD 0 0 + 60 * rs.getD 1 0 + rs.getD 2 0)
    | none => .ok duration
  else .ok 0

/-- The "restore end time" block: `strptime` the `finishes_at` attribute;
an absent attribute or a `ValueError` (caught) yields `None`. -/
def restoreEnd (fa : Option String) : Option Int :=
  match fa with
  | none => none
  | some v => strptimeUtc v

/-- The "timer was active" block: recompute `_remaining` from `_end`
(zero if `_end` is `None`), then the grace test. Within the grace period
the timer is set to paused with `_end = None` and re-armed through
`async_start(None)`; past it only `_state` is assigned (the stale `_end`
and the negative `_remaining` are left in place). The surrounding
`except ValueError` guards nothing that can raise `ValueError`. -/
def restoreActive (now : Int) (s : Sys) : Sys :=
  if s._state = STATUS_ACTIVE then
    let rem : Int :=
      match s._end with
      | some e => e - now
      | none => 0
    let s := { s with _remaining := rem }
    if s._remaining + s._restore_grace_period ≥ 0 then
      async_start none now { s with _state := STATUS_PAUSED, _end := none }
    else
      { s with _state := STATUS_IDLE }
  else s

/-- `Timer._restore_state(self, restored_state, state_attributes)`.
The first statement assigns `STATUS_IDLE` when the restored state is not
viable, but the next statement unconditionally overwrites `_state` with
`restored_state`, so the coercion is dead. -/
def _restore_state (restored_state : String) (attrs : RestoredAttrs) (now : Int)
    (s0 : Sys) : Except PyError Sys := do
  let s := if restored_state ∈ VIABLE_STATUSES then s0
    else { s0 with _state := STATUS_IDLE }
  let s := { s with _state := restored_state }
  let _ ← restoreDuration s._config_duration attrs.duration
  let rem ← restoreRemaining s._state attrs.remaining s._duration
  let s := { s with _remaining := rem }
  let s := { s with _end := restoreEnd attrs.finishes_at }
  pure (restoreActive now s)

/-- `Timer.async_added_to_hass(self)`. `last` models
`await self.async_get_last_state()`: `none` when no snapshot exists,
otherwise the snapshot's `state` string and attributes. -/
def async_added_to_hass (last : Option (String × RestoredAttrs)) (now : Int)
    (s : Sys) : Except PyError Sys :=
  if s._restore = false then .ok { s with _state := STATUS_IDLE }
  else
    match last with
    | none => .ok { s with _state := STATUS_IDLE }
    | some (st, attrs) => _restore_state st attrs now s

/-- `Timer.__init__(self, config)` for a config
`{duration: cfgDur, restore: restore, restore_grace_period: graceStr}`
(both spans as the `H:MM:SS` strings the config schema stores); `none`
models the `vol.Invalid` that `cv.time_period_str` raises upstream on a
malformed span. When `restore` is false the source leaves
`_restore_grace_period = None`; the model stores `0` (the field is unread
on non-restore paths). -/
def initTimer (cfgDur : String) (restore : Bool) (graceStr : String) : Option Sys :=
  match time_period_str cfgDur, time_period_str graceStr with
  | some d, some g =>
      some { _state := STATUS_IDLE,
             _duration := d,
             _remaining := d,
             _end := none,
             _listener := none,
             _config_duration := cfgDur,
             _restore := restore,
             _restore_grace_period := if restore then g else 0,
             scheduled := [],
             nextId := 0,
             events := [] }
  | _, _ => none

/-! ### Concrete instances used by witnesses and counterexamples -/

/-- A freshly constructed timer with `duration: "0:00:05"`, `restore: true`,
`restore_grace_period: "0:00:00"` (see `initTimer_sys5`). -/
def sys5 : Sys :=
  { _state := STATUS_IDLE,
    _duration := 5,
    _remaining := 5,
    _end := none,
    _listener := none,
    _config_duration := "0:00:05",
    _restore := true,
    _restore_grace_period := 0,
    scheduled := [],
    nextId := 0,
    events := [] }

/-- `sys5` is exactly what `Timer.__init__` produces for its config. -/
theorem initTimer_sys5 : initTimer "0:00:05" true "0:00:00" = some sys5 := by decide

/-- `sys5` with a 10-second restore grace period (config
`restore_grace_period: "0:00:10"`). -/
def sys5g : Sys := { sys5 with _restore_grace_period := 10 }

/-- `sys5g` is exactly what `Timer.__init__` produces for its config. -/
theorem initTimer_sys5g : initTimer "0:00:05" true "0:00:10" = some sys5g := by decide

/-- A zero-duration timer (config `duration: "0:00:00"`). -/
def sys0 : Sys :=
  { sys5 with _duration := 0, _remaining := 0, _config_duration := "0:00:00" }

/-- `sys0` is exactly what `Timer.__init__` produces for its config. -/
theorem initTimer_sys0 : initTimer "0:00:00" true "0:00:00" = some sys0 := by decide

/-- `sys5` with `restore: false`. -/
def sysNoRestore : Sys := { sys5 with _restore := false }

/-- `sysNoRestore` is exactly what `Timer.__init__` produces. -/
theorem initTimer_sysNoRestore : initTimer "0:00:05" false "0:00:00" = some sysNoRestore := by
  decide

/-- `sys5` started for 5 seconds at `t = 0`: active, due at `t = 5`. -/
def activeSys : Sys := async_start (some 5) 0 sys5

/-- `sys5` started for 5 seconds at `t = 5`: active, due at `t = 10`. -/
def c6sys : Sys := async_start (some 5) 5 sys5

/-! ### Helper lemmas -/

/-- Field-wise description of `async_start(None)` on an arbitrary state:
the event depends on the prior state, and duration resolution falls
through to `_remaining` when it is non-zero, else to `_duration`. -/
theorem async_start_none_fields (now : Int) (s : Sys) :
    (async_start none now s)._state = STATUS_ACTIVE ∧
    (async_start none now s).events = s.events ++
      [if s._state = STATUS_ACTIVE ∨ s._state = STATUS_PAUSED then
        TEvent.restarted else TEvent.started] ∧
    (async_start none now s)._duration = s._duration ∧
    (async_start none now s)._remaining =
      (if s._remaining = 0 then s._duration else s._remaining) ∧
    (async_start none now s)._end =
      some (if s._remaining = 0 then now + s._duration else now + s._remaining) := by
  cases hl : s._listener <;> by_cases hr : s._remaining = 0 <;>
    simp [async_start, truthyDuration, cancelListener, hl, hr]

/-- Reduction of `_restore_state` when the duration block is skipped
(non-empty configured duration string) and the remaining block returns
normally. -/
theorem _restore_state_ok (rs : String) (a : RestoredAttrs) (now : Int) (s : Sys)
    (r : Int) (hcd : s._config_duration.data.isEmpty = false)
    (hrem : restoreRemaining rs a.remaining s._duration = .ok r) :
    _restore_state rs a now s =
      .ok (restoreActive now
        { s with _state := rs, _remaining := r, _end := restoreEnd a.finishes_at }) := by
  by_cases hv : rs ∈ VIABLE_STATUSES <;>
    simp [_restore_state, hv, restoreDuration, hcd, hrem] <;> rfl

/-- `_restore_state`'s "timer was active" block is a no-op for any other
adopted state. -/
theorem restoreActive_not_active (now : Int) (s : Sys) (h : s._state ≠ STATUS_ACTIVE) :
    restoreActive now s = s := by
  simp [restoreActive, h]

/-! ### Claims -/

/-- **C1** (code bug): the claimed invariant "a live scheduled callback
exists iff the state is active, and never two at once" fails on the code:
`async_finish` drops the `_listener` reference without calling it, so
after `start(5s)` at `t=0` then `finish()` the timer is idle while its
callback is still scheduled, and a second `start(5s)` at `t=1` leaves TWO
callbacks scheduled simultaneously. -/
theorem c1_finish_leaves_callback_scheduled :
    ((async_finish (async_start (some 5) 0 sys5))._state = STATUS_IDLE ∧
     (async_finish (async_start (some 5) 0 sys5))._listener = none ∧
     (async_finish (async_start (some 5) 0 sys5)).scheduled = [(0, 5)]) ∧
    (async_start (some 5) 1 (async_finish (async_start (some 5) 0 sys5))).scheduled
      = [(0, 5), (1, 6)] := by
  decide

/-- **C3** (code bug): restoring a snapshot whose state is outside
`{idle, active, paused}` does NOT coerce to `idle` — the coercion
statement is immediately overwritten by `self._state = restored_state`,
so the bogus state is adopted verbatim. -/
theorem c3_nonviable_state_adopted :
    _restore_state "borked" ⟨none, none, none⟩ 0 sys5
      = .ok { sys5 with _state := "borked", _remaining := 0 } ∧
    "borked" ∉ VIABLE_STATUSES := by
  decide

/-- **C4** (code bug): restore reconciliation does NOT terminate normally
on every snapshot: a paused snapshot whose `remaining` attribute is `"7"`
(fewer than three colon-separated parts, each parseable as an int) raises
an uncaught `IndexError` past `_restore_state` — only `ValueError` is
caught. -/
theorem c4_restore_raises_index_error :
    _restore_state STATUS_PAUSED ⟨none, some "7", none⟩ 0 sys5
      = .error PyError.indexError := by
  decide

/-- **C5** (confirmed): from `active`, calling `finish()` then
`finish-by-timeout()` — or in the other order — yields final state `idle`
and exactly one `finished` event; whichever entry point runs second is a
no-op because the state is no longer `active`. -/
theorem c5_idempotent_finish (s : Sys) (h : s._state = STATUS_ACTIVE) :
    ((_async_finished (async_finish s))._state = STATUS_IDLE ∧
     (_async_finished (async_finish s)).events = s.events ++ [TEvent.finished]) ∧
    ((async_finish (_async_finished s))._state = STATUS_IDLE ∧
     (async_finish (_async_finished s)).events = s.events ++ [TEvent.finished]) := by
  constructor <;>
    simp [async_finish, _async_finished, h, STATUS_IDLE, STATUS_ACTIVE]

/-- Witness for `c5_idempotent_finish` at a concrete active timer. -/
theorem c5_witness :
    ((_async_finished (async_finish activeSys))._state = STATUS_IDLE ∧
     (_async_finished (async_finish activeSys)).events = activeSys.events ++ [TEvent.finished]) ∧
    ((async_finish (_async_finished activeSys))._state = STATUS_IDLE ∧
     (async_finish (_async_finished activeSys)).events = activeSys.events ++ [TEvent.finished]) :=
  c5_idempotent_finish activeSys (by decide)

/-- **C7** (confirmed): `cancel()` from ANY state sets `idle`, clears
`_end`, zeroes `_remaining`, clears the listener, and always emits
`cancelled` — including from idle with nothing running, where nothing
else changes but the event is still emitted. -/
theorem c7_cancel_always_resets_and_emits (s : Sys) :
    (async_cancel s)._state = STATUS_IDLE ∧
    (async_cancel s)._end = none ∧
    (async_cancel s)._remaining = 0 ∧
    (async_cancel s)._listener = none ∧
    (async_cancel s).events = s.events ++ [TEvent.cancelled] ∧
    (s._state = STATUS_IDLE → s._listener = none → s._end = none → s._remaining = 0 →
      async_cancel s = { s with events := s.events ++ [TEvent.cancelled] }) := by
  refine ⟨?_, ?_, ?_, ?_, ?_, fun h1 h2 h3 h4 => ?_⟩
  · cases hl : s._listener <;> simp [async_cancel, cancelListener, hl]
  · cases hl : s._listener <;> simp [async_cancel, cancelListener, hl]
  · cases hl : s._listener <;> simp [async_cancel, cancelListener, hl]
  · cases hl : s._listener <;> simp [async_cancel, cancelListener, hl]
  · cases hl : s._listener <;> simp [async_cancel, cancelListener, hl]
  · simp [async_cancel, cancelListener, h2, h1, h3, h4]

/-- Witness for `c7_cancel_always_resets_and_emits` at a concrete idle
zero-duration timer: cancel changes only the event trace. -/
theorem c7_witness :
    async_cancel sys0 = { sys0 with events := sys0.events ++ [TEvent.cancelled] } :=
  (c7_cancel_always_resets_and_emits sys0).2.2.2.2.2 rfl rfl rfl rfl

/-- **C9** (confirmed): if `restore` is disabled or no snapshot exists,
attaching the timer yields state `idle` and the snapshot is not consulted
(the result does not depend on the snapshot's contents). -/
theorem c9_restore_disabled_or_no_snapshot (s : Sys)
    (last : Option (String × RestoredAttrs)) (now : Int)
    (h : s._restore = false ∨ last = none) :
    async_added_to_hass last now s = .ok { s with _state := STATUS_IDLE } := by
  rcases h with h | h
  · simp [async_added_to_hass, h]
  · subst h
    by_cases hr : s._restore = false <;> simp [async_added_to_hass, hr]

/-- Witness for `c9_restore_disabled_or_no_snapshot`: a restore-disabled
timer attached over a garbage snapshot still comes up idle. -/
theorem c9_witness :
    async_added_to_hass
        (some ("garbage",
          RestoredAttrs.mk (some "1:00:00") (some "0:30:00")
            (some "2020-01-01 00:00:05+0000"))) 0 sysNoRestore
      = .ok { sysNoRestore with _state := STATUS_IDLE } :=
  c9_restore_disabled_or_no_snapshot sysNoRestore _ 0 (Or.inl rfl)

/-- **C10** (confirmed): `start` with a zero-length requested duration is
identical to `start` with no requested duration (Python truthiness makes
`timedelta(0)` fall through), and on that shared path resolution uses the
stored `_remaining` when non-zero, else the configured `_duration` — so
the service layer's default of zero can never override the configured
duration. -/
theorem c10_zero_duration_start (s : Sys) (now : Int) :
    async_start (some 0) now s = async_start none now s ∧
    (async_start none now s)._duration = s._duration ∧
    (async_start none now s)._remaining =
      (if s._remaining = 0 then s._duration else s._remaining) ∧
    (async_start none now s)._end =
      some (if s._remaining = 0 then now + s._duration else now + s._remaining) :=
  ⟨rfl, (async_start_none_fields now s).2.2.1, (async_start_none_fields now s).2.2.2.1,
    (async_start_none_fields now s).2.2.2.2⟩

/-- **C2** counterexample: the claim's discard branch ("state idle with
end_at absent, remaining zero") is false — restoring an active snapshot
100 seconds overdue against a zero grace period leaves the stale parsed
`_end` in place and the negative overrun in `_remaining`; only `_state`
is assigned. -/
theorem c2_counterexample :
    _restore_state STATUS_ACTIVE ⟨none, none, some "2020-01-01 00:00:05+0000"⟩
        1577836905 sys5
      = .ok { sys5 with _state := STATUS_IDLE, _remaining := -100,
                        _end := some 1577836805 } ∧
    (-100 : Int) ≠ 0 ∧ some (1577836805 : Int) ≠ (none : Option Int) := by
  decide

/-- **C2** (amended): restoring an active snapshot whose `finishes_at`
parses to `e` recomputes `remaining = e - now`; within the grace period
the result is `active` with exactly one `restarted` event and a fresh
`end_at = now + remaining` — except that a remaining of exactly zero
falls through `start`'s resolution to the configured duration
(`end_at = now + duration`); past the grace period the result is `idle`
with NO event, and `end_at`/`remaining` keep the stale parsed value and
the negative overrun. -/
theorem c2_amended (s : Sys) (a : RestoredAttrs) (now e : Int)
    (hcd : s._config_duration.data.isEmpty = false)
    (he : restoreEnd a.finishes_at = some e) :
    ∃ s', _restore_state STATUS_ACTIVE a now s = .ok s' ∧
      (e - now + s._restore_grace_period ≥ 0 →
        s'._state = STATUS_ACTIVE ∧
        s'.events = s.events ++ [TEvent.restarted] ∧
        s'._remaining = (if e - now = 0 then s._duration else e - now) ∧
        s'._end = some (if e - now = 0 then now + s._duration else now + (e - now))) ∧
      (e - now + s._restore_grace_period < 0 →
        s'._state = STATUS_IDLE ∧
        s'.events = s.events ∧
        s'._end = some e ∧
        s'._remaining = e - now) := by
  have hrem : restoreRemaining STATUS_ACTIVE a.remaining s._duration = .ok 0 := by
    simp [restoreRemaining, STATUS_ACTIVE, STATUS_PAUSED]
  have h1 := _restore_state_ok STATUS_ACTIVE a now s 0 hcd hrem
  rw [he] at h1
  refine ⟨_, h1, fun hge => ?_, fun hlt => ?_⟩
  · have hf := async_start_none_fields now
      { s with _state := STATUS_PAUSED, _remaining := e - now, _end := none }
    simp [restoreActive, STATUS_ACTIVE, STATUS_PAUSED, hge] at hf ⊢
    exact ⟨hf.1, hf.2.1, hf.2.2.2.1, hf.2.2.2.2⟩
  · simp [restoreActive, STATUS_ACTIVE, STATUS_PAUSED, not_le.mpr hlt]

/-- Witness for `c2_amended`: a concrete active snapshot 3 seconds
overdue against a 10-second grace period. -/
theorem c2_amended_witness :
    ∃ s', _restore_state STATUS_ACTIVE
        (RestoredAttrs.mk none none (some "2020-01-01 00:00:05+0000")) 1577836808 sys5g
        = .ok s' ∧
      ((1577836805 : Int) - 1577836808 + sys5g._restore_grace_period ≥ 0 →
        s'._state = STATUS_ACTIVE ∧
        s'.events = sys5g.events ++ [TEvent.restarted] ∧
        s'._remaining = (if (1577836805 : Int) - 1577836808 = 0 then sys5g._duration
          else (1577836805 : Int) - 1577836808) ∧
        s'._end = some (if (1577836805 : Int) - 1577836808 = 0 then
          1577836808 + sys5g._duration
          else 1577836808 + ((1577836805 : Int) - 1577836808))) ∧
      ((1577836805 : Int) - 1577836808 + sys5g._restore_grace_period < 0 →
        s'._state = STATUS_IDLE ∧
        s'.events = sys5g.events ∧
        s'._end = some 1577836805 ∧
        s'._remaining = (1577836805 : Int) - 1577836808) :=
  c2_amended sys5g (RestoredAttrs.mk none none (some "2020-01-01 00:00:05+0000"))
    1577836808 1577836805 (by decide) (by decide)

/-- **C6** counterexample: the claim's "a subsequent start with no
requested duration resumes from that remaining" fails when the pause
lands exactly at the deadline: pausing `c6sys` (due at `t = 10`) at
`t = 10` gives `remaining = 0`, and `start(None)` at `t = 10` then
consults the configured duration — `end_at = some 15`, not
`now + remaining = some 10`. -/
theorem c6_counterexample :
    (async_pause 10 c6sys)._remaining = 0 ∧
    (async_start none 10 (async_pause 10 c6sys))._end = some 15 ∧
    some (15 : Int) ≠ some ((10 : Int) + (async_pause 10 c6sys)._remaining) ∧
    (async_start none 10 (async_pause 10 c6sys))._remaining = c6sys._duration := by
  decide

/-- **C6** (amended): `pause()` on an active timer (live listener,
`_end = e`) sets `remaining = e - now`, state `paused`, `_end` absent and
emits `paused`; a subsequent `start(None)` emits `restarted` and resumes
from that remaining when it is non-zero (`end_at = now + remaining`,
duration untouched and not consulted), but a remaining of exactly zero
falls back to the configured duration. -/
theorem c6_amended (s : Sys) (now nowR e : Int) (hnd : Nat)
    (_hst : s._state = STATUS_ACTIVE) (hl : s._listener = some hnd)
    (he : s._end = some e) :
    (async_pause now s)._remaining = e - now ∧
    (async_pause now s)._state = STATUS_PAUSED ∧
    (async_pause now s)._end = none ∧
    (async_pause now s)._listener = none ∧
    (async_pause now s).events = s.events ++ [TEvent.paused] ∧
    (async_start none nowR (async_pause now s))._state = STATUS_ACTIVE ∧
    (async_start none nowR (async_pause now s)).events
      = s.events ++ [TEvent.paused, TEvent.restarted] ∧
    (async_start none nowR (async_pause now s))._duration = s._duration ∧
    (async_start none nowR (async_pause now s))._remaining
      = (if e - now = 0 then s._duration else e - now) ∧
    (async_start none nowR (async_pause now s))._end
      = some (if e - now = 0 then nowR + s._duration else nowR + (e - now)) := by
  have hp : async_pause now s =
      { s with scheduled := s.scheduled.filter (fun p => p.1 ≠ hnd),
               _listener := none,
               _remaining := e - now,
               _state := STATUS_PAUSED,
               _end := none,
               events := s.events ++ [TEvent.paused] } := by
    simp [async_pause, hl, he]
  rw [hp]
  by_cases hr : e - now = 0 <;>
    simp [async_start, truthyDuration, cancelListener, hr, STATUS_PAUSED, STATUS_ACTIVE]

/-- Witness for `c6_amended`: `c6sys` (due at `t = 10`) paused at `t = 8`
and restarted with no duration at `t = 9`. -/
theorem c6_amended_witness :
    (async_pause 8 c6sys)._remaining = 10 - 8 ∧
    (async_pause 8 c6sys)._state = STATUS_PAUSED ∧
    (async_pause 8 c6sys)._end = none ∧
    (async_pause 8 c6sys)._listener = none ∧
    (async_pause 8 c6sys).events = c6sys.events ++ [TEvent.paused] ∧
    (async_start none 9 (async_pause 8 c6sys))._state = STATUS_ACTIVE ∧
    (async_start none 9 (async_pause 8 c6sys)).events
      = c6sys.events ++ [TEvent.paused, TEvent.restarted] ∧
    (async_start none 9 (async_pause 8 c6sys))._duration = c6sys._duration ∧
    (async_start none 9 (async_pause 8 c6sys))._remaining
      = (if (10 : Int) - 8 = 0 then c6sys._duration else 10 - 8) ∧
    (async_start none 9 (async_pause 8 c6sys))._end
      = some (if (10 : Int) - 8 = 0 then 9 + c6sys._duration else 9 + ((10 : Int) - 8)) :=
  c6_amended c6sys 8 9 10 0 (by decide) (by decide) (by decide)

/-- **C8** counterexample: the claim's "absent remaining → zero" is
false — restoring a paused snapshot with NO `remaining` attribute sets
`remaining` to the configured duration (5), because
`str(None) = "None"` fails `int` parsing and the `except ValueError`
branch assigns `self._duration`. -/
theorem c8_counterexample :
    _restore_state STATUS_PAUSED ⟨none, none, none⟩ 0 sys5
      = .ok { sys5 with _state := STATUS_PAUSED, _remaining := 5 } ∧
    (5 : Int) ≠ 0 := by
  decide

/-- **C8** (amended): for a paused snapshot, a `remaining` attribute
equal to the literal string `"None"` or the literal zero `"0:00:00"`
yields remaining zero; an absent or integer-unparseable attribute
(ValueError) yields the configured duration, not zero; a value with at
least three all-integer colon-separated parts is adopted as
`H:MM:SS`. (Fewer than three parseable parts raise `IndexError` —
see the C4 theorem.) -/
theorem c8_amended (s : Sys) (a : RestoredAttrs) (now : Int)
    (hcd : s._config_duration.data.isEmpty = false) :
    ((a.remaining = some "None" ∨ a.remaining = some "0:00:00") →
      _restore_state STATUS_PAUSED a now s =
        .ok { s with _state := STATUS_PAUSED, _remaining := 0,
                     _end := restoreEnd a.finishes_at }) ∧
    (a.remaining ≠ some "None" → a.remaining ≠ some "0:00:00" →
      mapIntParts (pySplit ':' (strOfOpt a.remaining).data) = none →
      _restore_state STATUS_PAUSED a now s =
        .ok { s with _state := STATUS_PAUSED, _remaining := s._duration,
                     _end := restoreEnd a.finishes_at }) ∧
    (∀ l, a.remaining ≠ some "None" → a.remaining ≠ some "0:00:00" →
      mapIntParts (pySplit ':' (strOfOpt a.remaining).data) = some l → 3 ≤ l.length →
      _restore_state STATUS_PAUSED a now s =
        .ok { s with _state := STATUS_PAUSED,
                     _remaining := 3600 * l.getD 0 0 + 60 * l.getD 1 0 + l.getD 2 0,
                     _end := restoreEnd a.finishes_at }) := by
  refine ⟨fun h => ?_, fun h1 h2 h3 => ?_, fun l h1 h2 h3 h4 => ?_⟩
  · have hrem : restoreRemaining STATUS_PAUSED a.remaining s._duration = .ok 0 := by
      rcases h with h | h <;> simp [restoreRemaining, h, STR_TIMEDELTA_ZERO]
    rw [_restore_state_ok STATUS_PAUSED a now s 0 hcd hrem,
        restoreActive_not_active now _ (by simp [STATUS_PAUSED, STATUS_ACTIVE])]
  · have hrem : restoreRemaining STATUS_PAUSED a.remaining s._duration
        = .ok s._duration := by
      simp [restoreRemaining, h1, h2, h3, STR_TIMEDELTA_ZERO]
    rw [_restore_state_ok STATUS_PAUSED a now s s._duration hcd hrem,
        restoreActive_not_active now _ (by simp [STATUS_PAUSED, STATUS_ACTIVE])]
  · have hrem : restoreRemaining STATUS_PAUSED a.remaining s._duration =
        .ok (3600 * l.getD 0 0 + 60 * l.getD 1 0 + l.getD 2 0) := by
      simp [restoreRemaining, h1, h2, h3, STR_TIMEDELTA_ZERO, Nat.not_lt.mpr h4]
    rw [_restore_state_ok STATUS_PAUSED a now s _ hcd hrem,
        restoreActive_not_active now _ (by simp [STATUS_PAUSED, STATUS_ACTIVE])]

/-- Witness for `c8_amended`: a paused snapshot with `remaining` =
`"0:00:07"` restores 7 seconds. -/
theorem c8_amended_witness :
    _restore_state STATUS_PAUSED (RestoredAttrs.mk none (some "0:00:07") none) 0 sys5 =
      .ok { sys5 with _state := STATUS_PAUSED, _remaining := 7, _end := none } :=
  (c8_amended sys5 (RestoredAttrs.mk none (some "0:00:07") none) 0 (by decide)).2.2
    [0, 0, 7] (by decide) (by decide) (by decide) (by decide)
